import Mathlib

/-!
Verification of the Monarch Money ingestion pipeline (`ingest_and_export.py`).

This file gives a shallow embedding of the core pipeline:
the paginated fetcher (`MonarchClient.fetch_transactions`,
`MonarchClient._fetch_with_retry`, `MonarchClient._is_unauthorized_error`),
the record normalizer (`TransactionRepository._transform_transaction`,
`TransactionRepository._safe_get`, `TransactionRepository._parse_date`)
and the upsert store (`TransactionRepository.UPSERT_SQL`,
`TransactionRepository.upsert_transactions`), together with theorems
about pagination, retry, normalization and upsert behaviour.

JSON-shaped Python data is modelled by the inductive `JValue`; Python
exceptions are modelled by `Except`; the remote service is modelled as an
oracle mapping (attempt, offset) to a page response or an error.
-/

namespace Monarch

/-- A JSON-like Python value, as produced by deserializing the Monarch API
response: `null`/`None`, booleans, numbers, strings, lists and dicts. -/
inductive JValue where
  | null : JValue
  | bool (b : Bool) : JValue
  | num (n : Int) : JValue
  | str (s : String) : JValue
  | arr (xs : List JValue) : JValue
  | obj (fields : List (String × JValue)) : JValue

/-- A transaction record as received from the API: a Python dict. -/
abbrev Txn := List (String × JValue)

/-- Python truthiness of a JSON-shaped value (`bool(v)`). -/
def jTruthy : JValue → Bool
  | .null => false
  | .bool b => b
  | .num n => n != 0
  | .str s => !s.data.isEmpty
  | .arr xs => !xs.isEmpty
  | .obj fs => !fs.isEmpty

/-- Python `d.get(k)` on a dict deserialized from JSON: a missing key and a
key mapped to JSON `null` both yield Python `None`, modelled as `none`. -/
def pyGet (d : Txn) (k : String) : Option JValue :=
  match List.lookup k d with
  | some JValue.null => none
  | some v => some v
  | none => none

/-- Python truthiness of a possibly-`None` value. -/
def optTruthy : Option JValue → Bool
  | none => false
  | some v => jTruthy v

/-- Python `a or b` on possibly-`None` values: the first operand if it is
truthy, otherwise the second. -/
def pyOr (a b : Option JValue) : Option JValue :=
  if optTruthy a then a else b

/-- Python `s.lower()` (ASCII case folding suffices for the messages used). -/
def pyLower (s : String) : String := ⟨s.data.map Char.toLower⟩

/-- Python substring test `sub in hay` on character lists. -/
def hasSubstr (hay sub : List Char) : Bool :=
  (List.range (hay.length + 1)).any (fun i => sub.isPrefixOf (hay.drop i))

/-- A Python exception, carrying its `str(...)` message.  `monarchAPI` models
the script's own `MonarchAPIError`; `exn` models any other exception raised
by the transport or client library. -/
inductive PyErr where
  | monarchAPI (message : String) : PyErr
  | exn (message : String) : PyErr
deriving DecidableEq

/-- The message `str(error)` of an exception. -/
def PyErr.message : PyErr → String
  | .monarchAPI m => m
  | .exn m => m

/-- `MonarchClient._is_unauthorized_error`: the lowercased message contains
`"401"` or `"unauthorized"` as a substring. -/
def is_unauthorized_error (e : PyErr) : Bool :=
  let msg := pyLower e.message
  hasSubstr msg.data "401".data || hasSubstr msg.data "unauthorized".data

/-- One page of the `get_transactions` response (`data["allTransactions"]`):
the service-reported total count and this page's records. -/
structure PageResp (α : Type) where
  totalCount : Nat
  results : List α

/-- A page oracle models `fetch_page` over the life of one pipeline run:
`pg attempt off` is the outcome of the request for offset `off`, where
`attempt` is 0 for the first try at that offset and 1 for the retry issued
after a re-authentication. -/
abbrev PageOracle (α : Type) := Nat → Nat → Except PyErr (PageResp α)

/-- Outcome of `MonarchClient._fetch_with_retry` on one page: the returned
value or propagated exception, the log of issued requests as
(attempt, offset) pairs, and how many re-authentications were performed. -/
structure RetryResult (α : Type) where
  result : Except PyErr (PageResp α)
  calls : List (Nat × Nat)
  reauths : Nat

/-- `MonarchClient._fetch_with_retry`: call the fetch function once; if it
raises an error classified as unauthorized, re-authenticate and retry the
same arguments exactly once, propagating whatever the retry produces; any
other error propagates unmodified with no re-authentication. -/
def fetch_with_retry (pg : PageOracle α) (off : Nat) : RetryResult α :=
  match pg 0 off with
  | .ok page => ⟨.ok page, [(0, off)], 0⟩
  | .error e =>
    if is_unauthorized_error e then
      ⟨pg 1 off, [(0, off), (1, off)], 1⟩
    else
      ⟨.error e, [(0, off)], 0⟩

/-- Outcome of `MonarchClient.fetch_transactions`: the accumulated records or
the propagated exception, the full log of page requests as
(attempt, offset) pairs, and whether the empty-page safety guard fired
(the logged "Received empty page, stopping pagination" truncation). -/
structure FetchOutcome (α : Type) where
  result : Except PyErr (List α)
  requests : List (Nat × Nat)
  truncated : Bool

/-- The `while len(all_results) < total_count` page loop of
`MonarchClient.fetch_transactions`, entered after the first page has been
consumed: `total` is the totalCount read from the first page (never re-read),
`off` the next offset, `acc` the records so far and `log` the requests so
far.  A page returning zero records stops pagination (safety guard). -/
def fetch_pages (pg : PageOracle α) (limit total : Nat) (off : Nat)
    (acc : List α) (log : List (Nat × Nat)) : FetchOutcome α :=
  if h : acc.length < total then
    let r := fetch_with_retry pg off
    match r.result with
    | .error e => ⟨.error e, log ++ r.calls, false⟩
    | .ok page =>
      if he : page.results.isEmpty then
        ⟨.ok acc, log ++ r.calls, true⟩
      else
        fetch_pages pg limit total (off + limit) (acc ++ page.results)
          (log ++ r.calls)
  else
    ⟨.ok acc, log, false⟩
termination_by total - acc.length
decreasing_by
  simp only [List.length_append]
  have hp : 0 < page.results.length := by
    cases hr : page.results with
    | nil => rw [hr] at he; simp at he
    | cons a l => simp [hr]
  omega

/-- `MonarchClient.fetch_transactions`: raise `MonarchAPIError` if the client
was never initialized; otherwise fetch the first page (through the retry
wrapper), read `totalCount` from it, then loop over the remaining offsets. -/
def fetch_transactions (client : Option (PageOracle α)) (limit : Nat) :
    FetchOutcome α :=
  match client with
  | none =>
    ⟨.error (.monarchAPI "Client not initialized. Call initialize() first."),
      [], false⟩
  | some pg =>
    let r := fetch_with_retry pg 0
    match r.result with
    | .error e => ⟨.error e, r.calls, false⟩
    | .ok page => fetch_pages pg limit page.totalCount limit page.results r.calls

/-- A calendar date, the result of `datetime.strptime(s, "%Y-%m-%d").date()`. -/
structure MDate where
  year : Nat
  month : Nat
  day : Nat
deriving DecidableEq

/-- Gregorian leap-year rule, as used by Python's `datetime` validation. -/
def isLeapYear (y : Nat) : Bool :=
  (y % 4 == 0 && y % 100 != 0) || y % 400 == 0

/-- Number of days in a month, as validated by Python's `datetime`. -/
def daysInMonth (y m : Nat) : Nat :=
  if m == 2 then (if isLeapYear y then 29 else 28)
  else if m == 4 || m == 6 || m == 9 || m == 11 then 30
  else 31

/-- Numeric value of a run of ASCII digits. -/
def digitsToNat (cs : List Char) : Nat :=
  cs.foldl (fun n c => n * 10 + (c.toNat - 48)) 0

/-- Split a character list on a separator character (the fields between
occurrences of the separator, like Python's `s.split("-")`). -/
def splitOnChar (sep : Char) : List Char → List (List Char)
  | [] => [[]]
  | c :: cs =>
    match splitOnChar sep cs with
    | [] => [[c]]
    | h :: t => if c == sep then [] :: h :: t else (c :: h) :: t

/-- The `%Y` directive of CPython's `_strptime`: exactly four digits
(regex `\d\d\d\d`).  ASCII digits (the API serves ASCII dates). -/
def yearTok (cs : List Char) : Option Nat :=
  if cs.length == 4 && cs.all Char.isDigit then some (digitsToNat cs)
  else none

/-- The `%m` directive of CPython's `_strptime`: regex
`1[0-2]|0[1-9]|[1-9]`, i.e. a bare or zero-padded month in 1..12. -/
def monthTok (cs : List Char) : Option Nat :=
  match cs with
  | [c] =>
    if c.isDigit && c != '0' then some (c.toNat - 48) else none
  | [c1, c2] =>
    if c1.isDigit && c2.isDigit then
      let n := 10 * (c1.toNat - 48) + (c2.toNat - 48)
      if 1 ≤ n && n ≤ 12 then some n else none
    else none
  | _ => none

/-- The `%d` directive of CPython's `_strptime`: regex
`3[01]|[12]\d|0[1-9]|[1-9]| [1-9]`, i.e. a bare, zero-padded or
space-padded day in 1..31. -/
def dayTok (cs : List Char) : Option Nat :=
  match cs with
  | [c] =>
    if c.isDigit && c != '0' then some (c.toNat - 48) else none
  | [' ', c] =>
    if c.isDigit && c != '0' then some (c.toNat - 48) else none
  | [c1, c2] =>
    if c1.isDigit && c2.isDigit then
      let n := 10 * (c1.toNat - 48) + (c2.toNat - 48)
      if 1 ≤ n && n ≤ 31 then some n else none
    else none
  | _ => none

/-- `datetime.strptime(s, "%Y-%m-%d")`: the whole string must be
`%Y` `-` `%m` `-` `%d` (none of the three tokens can contain a hyphen, and
the year is exactly four characters, so the match structure coincides with
splitting on hyphens), followed by `datetime`'s own validation — year at
least `MINYEAR` (1) and the day within the month's length.
Returns `none` exactly when `strptime` raises `ValueError`. -/
def strptimeYMD (s : String) : Option MDate :=
  match splitOnChar '-' s.data with
  | [y, m, d] =>
    match yearTok y, monthTok m, dayTok d with
    | some yn, some mn, some dn =>
      if 1 ≤ yn && dn ≤ daysInMonth yn mn then some ⟨yn, mn, dn⟩
      else none
    | _, _, _ => none
  | _ => none

/-- `TransactionRepository._parse_date` applied to `txn.get("date")`:
a falsy value (`None`, `""`, `0`, ...) yields `None`; a non-empty string is
parsed with `strptime`, raising `ValueError` (modelled as `.error`) when it
does not parse; a truthy non-string raises `TypeError` inside `strptime`. -/
def parse_date (dateVal : Option JValue) : Except String (Option MDate) :=
  match dateVal with
  | none => .ok none
  | some v =>
    if jTruthy v then
      match v with
      | .str s =>
        match strptimeYMD s with
        | some d => .ok (some d)
        | none => .error ("ValueError: time data " ++ s ++
            " does not match format %Y-%m-%d")
      | _ => .error "TypeError: strptime() argument 1 must be str"
    else .ok none

/-- `TransactionRepository._safe_get`: walk a key path through nested dicts;
if at any level the current value is not a dict or lacks the key, return the
default `None`.  Total by construction: it never raises. -/
def safe_get (v : JValue) : List String → Option JValue
  | [] => some v
  | k :: rest =>
    match v with
    | .obj fs =>
      match List.lookup k fs with
      | some v2 => safe_get v2 rest
      | none => none
    | _ => none

mutual

/-- `json.dumps` on a JSON-shaped Python value (Python's default separators).
Only the string's role as a verbatim copy of the record matters for the
theorems below. -/
def JValue.dumps : JValue → String
  | .null => "null"
  | .bool b => if b then "true" else "false"
  | .num n => toString n
  | .str s => "\"" ++ s ++ "\""
  | .arr xs => "[" ++ JValue.dumpsList xs ++ "]"
  | .obj fs => "\x7b" ++ JValue.dumpsFields fs ++ "\x7d"

/-- Comma-separated serialization of a JSON array's elements. -/
def JValue.dumpsList : List JValue → String
  | [] => ""
  | [x] => JValue.dumps x
  | x :: xs => JValue.dumps x ++ ", " ++ JValue.dumpsList xs

/-- Comma-separated serialization of a JSON object's fields. -/
def JValue.dumpsFields : List (String × JValue) → String
  | [] => ""
  | [(k, v)] => "\"" ++ k ++ "\": " ++ JValue.dumps v
  | (k, v) :: fs => "\"" ++ k ++ "\": " ++ JValue.dumps v ++ ", " ++
      JValue.dumpsFields fs

end

/-- The flattened database payload built by
`TransactionRepository._transform_transaction` for one valid transaction:
exactly the keys bound in the returned dict. -/
structure Row where
  transaction_id : JValue
  txn_date : MDate
  amount : JValue
  merchant_name : Option JValue
  category_name : Option JValue
  category_group : Option JValue
  account_id : Option JValue
  account_name : Option JValue
  account_owner : Option JValue
  notes : Option JValue
  is_pending : Option JValue
  is_transfer : Option JValue
  created_at : Option JValue
  updated_at : Option JValue
  raw_json : String

/-- `TransactionRepository._transform_transaction`: parse the date (which can
raise, modelled as `.error`), then return `None` (`.ok none`) when the id is
falsy, the date is `None`, or the amount is `None`; otherwise build the row.
The transfer flag is Python `txn.get("isTransfer") or txn.get("is_transfer")`. -/
def transform_transaction (txn : Txn) : Except String (Option Row) :=
  match parse_date (pyGet txn "date") with
  | .error e => .error e
  | .ok txnDate =>
    if !optTruthy (pyGet txn "id") || txnDate.isNone ||
        (pyGet txn "amount").isNone then
      .ok none
    else
      .ok (some {
        transaction_id := (pyGet txn "id").getD .null,
        txn_date := txnDate.getD ⟨1, 1, 1⟩,
        amount := (pyGet txn "amount").getD .null,
        merchant_name := safe_get (.obj txn) ["merchant", "name"],
        category_name := safe_get (.obj txn) ["category", "name"],
        category_group := none,
        account_id := safe_get (.obj txn) ["account", "id"],
        account_name := safe_get (.obj txn) ["account", "displayName"],
        account_owner := none,
        notes := pyGet txn "notes",
        is_pending := pyGet txn "pending",
        is_transfer := pyOr (pyGet txn "isTransfer") (pyGet txn "is_transfer"),
        created_at := pyGet txn "createdAt",
        updated_at := pyGet txn "updatedAt",
        raw_json := JValue.dumps (.obj txn) })

mutual

/-- Structural equality of JSON values, the equality PostgreSQL applies to
the `transaction_id` column when resolving `ON CONFLICT (transaction_id)`. -/
def JValue.beq : JValue → JValue → Bool
  | .null, .null => true
  | .bool a, .bool b => a == b
  | .num a, .num b => a == b
  | .str a, .str b => a == b
  | .arr xs, .arr ys => JValue.beqList xs ys
  | .obj xs, .obj ys => JValue.beqFields xs ys
  | _, _ => false

/-- Elementwise equality of JSON arrays. -/
def JValue.beqList : List JValue → List JValue → Bool
  | [], [] => true
  | x :: xs, y :: ys => JValue.beq x y && JValue.beqList xs ys
  | _, _ => false

/-- Elementwise equality of JSON object field lists. -/
def JValue.beqFields : List (String × JValue) → List (String × JValue) → Bool
  | [], [] => true
  | (k1, v1) :: xs, (k2, v2) :: ys =>
    k1 == k2 && JValue.beq v1 v2 && JValue.beqFields xs ys
  | _, _ => false

end

mutual

theorem JValue.beq_refl : (v : JValue) → JValue.beq v v = true
  | .null => rfl
  | .bool b => by simp [JValue.beq]
  | .num n => by simp [JValue.beq]
  | .str s => by simp [JValue.beq]
  | .arr xs => by simp [JValue.beq, JValue.beqList_refl xs]
  | .obj fs => by simp [JValue.beq, JValue.beqFields_refl fs]

theorem JValue.beqList_refl : (l : List JValue) → JValue.beqList l l = true
  | [] => rfl
  | x :: xs => by
    simp [JValue.beqList, JValue.beq_refl x, JValue.beqList_refl xs]

theorem JValue.beqFields_refl :
    (l : List (String × JValue)) → JValue.beqFields l l = true
  | [] => rfl
  | (k, v) :: xs => by
    simp [JValue.beqFields, JValue.beq_refl v, JValue.beqFields_refl xs]

end

/-- A stored row of `raw.monarch_transactions`: the payload columns written
by `UPSERT_SQL` plus an ingestion timestamp.

Modelled from the spec: the table's DDL is not in the repository (the schema
lives in the managed database); §3 of the spec states that a Persisted Row is
the flattened projection "plus an ingestion timestamp" that re-ingestion
refreshes, so `ingested_at` is set to the current time whenever the row is
inserted or updated. -/
structure DBRow where
  data : Row
  ingested_at : Nat

/-- The row resulting from `UPSERT_SQL`'s `ON CONFLICT ... DO UPDATE` on an
existing row `old` with incoming payload `p`: every column named in the
`DO UPDATE SET` list takes the `EXCLUDED` (incoming) value; `transaction_id`
(the conflict key) and the columns absent from the update list
(`category_group`, `account_owner`) keep their stored values. -/
def updateRow (old : DBRow) (p : Row) (now : Nat) : DBRow :=
  { data := { p with
      transaction_id := old.data.transaction_id,
      category_group := old.data.category_group,
      account_owner := old.data.account_owner },
    ingested_at := now }

/-- Effect of executing `UPSERT_SQL` with payload `p` against store `s`:
insert a new row, or on a `transaction_id` conflict update the conflicting
row in place. -/
def apply_upsert (s : List DBRow) (p : Row) (now : Nat) : List DBRow :=
  if s.any (fun r => JValue.beq r.data.transaction_id p.transaction_id) then
    s.map (fun r =>
      if JValue.beq r.data.transaction_id p.transaction_id then
        updateRow r p now
      else r)
  else
    s ++ [⟨p, now⟩]

/-- The per-transaction loop body of
`TransactionRepository.upsert_transactions`, threading the uncommitted store
and the `rows_upserted` / `rows_skipped` counters.  `execFails k` injects a
database error into the k-th `cur.execute` (a storage-layer failure); a
transform exception or an execute failure aborts the loop (the Python
exception propagates to the `except` clause). -/
def upsert_loop (execFails : Nat → Bool) (now : Nat) :
    List Txn → List DBRow → Nat → Nat → Nat →
    Except String (List DBRow × Nat × Nat)
  | [], s, ups, skips, _ => .ok (s, ups, skips)
  | t :: rest, s, ups, skips, k =>
    match transform_transaction t with
    | .error e => .error e
    | .ok none => upsert_loop execFails now rest s ups (skips + 1) k
    | .ok (some row) =>
      if execFails k then .error "DatabaseError: execute failed"
      else upsert_loop execFails now rest (apply_upsert s row now)
        (ups + 1) skips (k + 1)

/-- Outcome of one `upsert_transactions` call: the returned
(`rows_upserted`, `rows_skipped`) counters or the propagated exception, and
the committed store visible after the call. -/
structure UpsertOutcome where
  result : Except String (Nat × Nat)
  store : List DBRow

/-- `TransactionRepository.upsert_transactions`: run every transaction
through `_transform_transaction`, skipping rejected ones, executing
`UPSERT_SQL` for the rest in one database transaction, then `commit`; on any
exception, `rollback` (the initial store stays visible) and re-raise. -/
def upsert_transactions (execFails : Nat → Bool) (commitFails : Bool)
    (now : Nat) (init : List DBRow) (txns : List Txn) : UpsertOutcome :=
  match upsert_loop execFails now txns init 0 0 0 with
  | .error e => ⟨.error e, init⟩
  | .ok (s, ups, skips) =>
    if commitFails then ⟨.error "DatabaseError: commit failed", init⟩
    else ⟨.ok (ups, skips), s⟩

/-! ### Theorems -/

/-- C3: a page request whose first attempt fails with a recoverable
authorization failure triggers exactly one re-authentication and exactly one
retry of the same page at the same offset, and the retry's outcome — success
or a second failure of any kind — is propagated as is, with no further
re-authentication or retry. -/
theorem c3_auth_retry_once {α : Type} (pg : PageOracle α) (off : Nat)
    (e : PyErr) (h1 : pg 0 off = .error e)
    (h2 : is_unauthorized_error e = true) :
    (fetch_with_retry pg off).reauths = 1 ∧
    (fetch_with_retry pg off).calls = [(0, off), (1, off)] ∧
    (fetch_with_retry pg off).result = pg 1 off := by
  simp [fetch_with_retry, h1, h2]

/-- Oracle for the C3 witness: a 401 on the first attempt at any offset and
a second 401 on the retry. -/
def pgC3 : PageOracle Nat := fun attempt _ =>
  if attempt == 0 then .error (.exn "401 Client Error: Unauthorized")
  else .error (.exn "401 Client Error: Unauthorized (again)")

theorem c3_auth_retry_once_witness :
    (fetch_with_retry pgC3 7).reauths = 1 ∧
    (fetch_with_retry pgC3 7).calls = [(0, 7), (1, 7)] ∧
    (fetch_with_retry pgC3 7).result =
      .error (.exn "401 Client Error: Unauthorized (again)") :=
  c3_auth_retry_once pgC3 7 (.exn "401 Client Error: Unauthorized") rfl
    (by decide)

/-- C4: a failed page request triggers a re-authentication if and only if
the error is classified unauthorized (its lowercased message contains "401"
or "unauthorized"); any error not so classified propagates unmodified, with
no re-authentication and no retry. -/
theorem c4_error_classification {α : Type} (pg : PageOracle α) (off : Nat)
    (e : PyErr) (h : pg 0 off = .error e) :
    ((fetch_with_retry pg off).reauths = 1 ↔ is_unauthorized_error e = true) ∧
    (is_unauthorized_error e = false →
      (fetch_with_retry pg off).result = .error e ∧
      (fetch_with_retry pg off).calls = [(0, off)] ∧
      (fetch_with_retry pg off).reauths = 0) := by
  cases hu : is_unauthorized_error e with
  | true => simp [fetch_with_retry, h, hu]
  | false => simp [fetch_with_retry, h, hu]

/-- Oracle for the C4 witness: a network timeout, not an auth failure. -/
def pgC4 : PageOracle Nat := fun _ _ =>
  .error (.exn "ReadTimeout: connection to api timed out")

theorem c4_error_classification_witness :
    (fetch_with_retry pgC4 3).result =
      .error (.exn "ReadTimeout: connection to api timed out") ∧
    (fetch_with_retry pgC4 3).calls = [(0, 3)] ∧
    (fetch_with_retry pgC4 3).reauths = 0 :=
  (c4_error_classification pgC4 3
    (.exn "ReadTimeout: connection to api timed out") rfl).2 (by decide)

/-- C10: calling `fetch_transactions` with no initialized client raises
`MonarchAPIError` and performs zero page requests. -/
theorem c10_uninitialized_client_raises {α : Type} (limit : Nat) :
    fetch_transactions (α := α) none limit =
      ⟨.error (.monarchAPI "Client not initialized. Call initialize() first."),
        [], false⟩ :=
  rfl

/-- Helper: a successfully transformed row is exactly the record literal
built by `_transform_transaction`; this exposes the field equations used by
the normalizer theorems. -/
theorem transform_fields (txn : Txn) (r : Row)
    (h : transform_transaction txn = .ok (some r)) :
    r.merchant_name = safe_get (.obj txn) ["merchant", "name"] ∧
    r.is_pending = pyGet txn "pending" ∧
    r.is_transfer = pyOr (pyGet txn "isTransfer") (pyGet txn "is_transfer") ∧
    r.category_group = none ∧
    r.account_owner = none ∧
    r.raw_json = JValue.dumps (.obj txn) := by
  unfold transform_transaction at h
  split at h
  · exact absurd h (by simp)
  · split at h
    · exact absurd h (by simp)
    · simp only [Except.ok.injEq, Option.some.injEq] at h
      subst h
      exact ⟨rfl, rfl, rfl, rfl, rfl, rfl⟩

/-- C6: nested-field extraction is null-safe.  If a transaction has no
`merchant` key, or its `merchant` value is not an object, `_safe_get`
returns the absent default and the normalized row (when the transaction is
accepted at all) carries an absent merchant name; no fault is raised
(`safe_get` and `transform_transaction` are total functions). -/
theorem c6_null_safe_merchant (txn : Txn)
    (hm : ∀ v, List.lookup "merchant" txn = some v →
      ∀ fs, v ≠ JValue.obj fs) :
    safe_get (.obj txn) ["merchant", "name"] = none ∧
    ∀ r, transform_transaction txn = .ok (some r) → r.merchant_name = none := by
  have hstep : safe_get (.obj txn) ["merchant", "name"] =
      match List.lookup "merchant" txn with
      | some v2 => safe_get v2 ["name"]
      | none => none := rfl
  have hs : safe_get (.obj txn) ["merchant", "name"] = none := by
    rw [hstep]
    cases hl : List.lookup "merchant" txn with
    | none => rfl
    | some v =>
      cases v with
      | obj fs => exact absurd rfl (hm _ hl fs)
      | null => rfl
      | bool b => rfl
      | num n => rfl
      | str s => rfl
      | arr xs => rfl
  exact ⟨hs, fun r hr => (transform_fields txn r hr).1.trans hs⟩

/-- Transaction for the C6 witness: no `merchant` key at all. -/
def txnC6w : Txn :=
  [("id", .str "m1"), ("date", .str "2024-03-01"), ("amount", .num 2)]

theorem c6_null_safe_merchant_witness :
    safe_get (.obj txnC6w) ["merchant", "name"] = none :=
  (c6_null_safe_merchant txnC6w
    (by intro v hv fs; simp [txnC6w, List.lookup] at hv)).1

/-- Placeholder row used only to give total projections out of
`transform_transaction` results in concrete computations. -/
def defaultRow : Row :=
  { transaction_id := .null, txn_date := ⟨1, 1, 1⟩, amount := .null,
    merchant_name := none, category_name := none, category_group := none,
    account_id := none, account_name := none, account_owner := none,
    notes := none, is_pending := none, is_transfer := none,
    created_at := none, updated_at := none, raw_json := "" }

/-- The row produced by `_transform_transaction` for a transaction known to
be accepted (bookkeeping helper for concrete witnesses). -/
def rowOf (t : Txn) : Row :=
  match transform_transaction t with
  | .ok (some r) => r
  | _ => defaultRow

/-- C7 (amended): for an accepted transaction, a `pending` key missing from
the source record yields an absent (`None`) `is_pending`, and — because the
code computes `txn.get("isTransfer") or txn.get("is_transfer")`, which is
`None` when both keys are missing — a missing transfer flag also yields an
absent (`None`) `is_transfer`, not `False`. -/
theorem c7_flag_defaults (txn : Txn)
    (hp : List.lookup "pending" txn = none)
    (h1 : List.lookup "isTransfer" txn = none)
    (h2 : List.lookup "is_transfer" txn = none) :
    ∀ r, transform_transaction txn = .ok (some r) →
      r.is_pending = none ∧ r.is_transfer = none := by
  intro r hr
  have hf := transform_fields txn r hr
  refine ⟨?_, ?_⟩
  · rw [hf.2.1]
    simp [pyGet, hp]
  · rw [hf.2.2.1]
    simp [pyOr, pyGet, optTruthy, h1, h2]

/-- Transaction for the C7 theorems: accepted, with no `pending`,
`isTransfer` or `is_transfer` key. -/
def txnC7 : Txn :=
  [("id", .str "t7"), ("date", .str "2024-01-15"), ("amount", .num 7)]

theorem c7_flag_defaults_witness :
    (rowOf txnC7).is_pending = none ∧ (rowOf txnC7).is_transfer = none :=
  c7_flag_defaults txnC7 rfl rfl rfl (rowOf txnC7) rfl

/-- C7 counterexample to the claim as stated: for a transaction with no
transfer flag in the source record, the normalized row's `is_transfer` is
absent (`None`, hence SQL `NULL`), not the claimed default `False`. -/
theorem c7_counterexample :
    transform_transaction txnC7 = .ok (some (rowOf txnC7)) ∧
    List.lookup "isTransfer" txnC7 = none ∧
    List.lookup "is_transfer" txnC7 = none ∧
    (rowOf txnC7).is_transfer = none ∧
    (rowOf txnC7).is_transfer ≠ some (JValue.bool false) := by
  refine ⟨rfl, rfl, rfl, rfl, ?_⟩
  rw [show (rowOf txnC7).is_transfer = none from rfl]
  simp

/-- Whether an `Except` computation succeeded (did not raise). -/
def isOkE : Except ε α → Bool
  | .ok _ => true
  | .error _ => false

/-- Helper: given the date-parse outcome, `_transform_transaction` returns
`None` (rejects) exactly when the id is falsy, the parsed date is `None`,
or the amount is `None`. -/
theorem transform_rejects_iff (txn : Txn) (d : Option MDate)
    (hd : parse_date (pyGet txn "date") = .ok d) :
    (transform_transaction txn = .ok none ↔
      (optTruthy (pyGet txn "id") = false ∨ d = none ∨
        pyGet txn "amount" = none)) := by
  have hstep : transform_transaction txn = .ok none ↔
      (!optTruthy (pyGet txn "id") || d.isNone ||
        (pyGet txn "amount").isNone) = true := by
    cases hc : (!optTruthy (pyGet txn "id") || d.isNone ||
        (pyGet txn "amount").isNone) with
    | true =>
      have h2 : transform_transaction txn = .ok none := by
        unfold transform_transaction
        rw [hd]
        simp [hc]
      simp [h2]
    | false =>
      have h2 : ¬ transform_transaction txn = .ok none := by
        unfold transform_transaction
        rw [hd]
        simp [hc]
      simp [h2]
  rw [hstep]
  simp [Option.isNone_iff_eq_none, or_assoc]

/-- Helper: when the date field parses (does not raise), the transform as a
whole does not raise: it returns either a row or a rejection. -/
theorem transform_no_raise (txn : Txn) (d : Option MDate)
    (hd : parse_date (pyGet txn "date") = .ok d) :
    isOkE (transform_transaction txn) = true := by
  cases hcond : (!optTruthy (pyGet txn "id") || d.isNone ||
      (pyGet txn "amount").isNone) with
  | true =>
    have h2 : transform_transaction txn = .ok none := by
      unfold transform_transaction
      rw [hd]
      simp [hcond]
    rw [h2]
    rfl
  | false =>
    unfold transform_transaction
    rw [hd]
    simp [hcond, isOkE]

/-- Helper: a batch in which every transaction transforms without raising
runs `upsert_loop` to completion, with the final counters summing to the
starting counters plus the batch length. -/
theorem upsert_loop_counts (now : Nat) :
    ∀ (txns : List Txn) (s : List DBRow) (ups skips k : Nat),
      (∀ t ∈ txns, isOkE (transform_transaction t) = true) →
      ∃ s2 u2 k2, upsert_loop (fun _ => false) now txns s ups skips k =
        .ok (s2, u2, k2) ∧ u2 + k2 = ups + skips + txns.length := by
  intro txns
  induction txns with
  | nil =>
    intro s ups skips k hok
    exact ⟨s, ups, skips, rfl, by simp⟩
  | cons t rest ih =>
    intro s ups skips k hok
    have ht := hok t (List.mem_cons_self t rest)
    have hrest := fun t2 ht2 => hok t2 (List.mem_cons_of_mem _ ht2)
    cases htr : transform_transaction t with
    | error e => rw [htr] at ht; simp [isOkE] at ht
    | ok o =>
      cases o with
      | none =>
        obtain ⟨s2, u2, k2, heq, hsum⟩ := ih s ups (skips + 1) k hrest
        refine ⟨s2, u2, k2, ?_, by simp; omega⟩
        simp only [upsert_loop, htr, heq]
      | some row =>
        obtain ⟨s2, u2, k2, heq, hsum⟩ :=
          ih (apply_upsert s row now) (ups + 1) skips (k + 1) hrest
        refine ⟨s2, u2, k2, ?_, by simp; omega⟩
        simp only [upsert_loop, htr, heq, Bool.false_eq_true, if_false]

/-- C5 (amended): `_transform_transaction` rejects (returns `None`, counted
as skipped) exactly when the id is falsy (absent or empty), the date field
is absent/falsy, or the amount is absent — given that a present date parses;
a present-but-zero amount is not rejected; and a batch in which every
present date parses completes with `rows_upserted + rows_skipped` equal to
the batch length.  (The unamended claim fails because a present date that
does not parse raises `ValueError` and aborts the batch: see the
counterexample.) -/
theorem c5_rejection_and_accounting :
    (∀ (txn : Txn) (d : Option MDate),
      parse_date (pyGet txn "date") = .ok d →
      (transform_transaction txn = .ok none ↔
        (optTruthy (pyGet txn "id") = false ∨ d = none ∨
          pyGet txn "amount" = none))) ∧
    (∀ (txn : Txn) (d : MDate),
      parse_date (pyGet txn "date") = .ok (some d) →
      optTruthy (pyGet txn "id") = true →
      pyGet txn "amount" = some (.num 0) →
      isOkE (transform_transaction txn) = true ∧
        transform_transaction txn ≠ .ok none) ∧
    (∀ (txns : List Txn) (now : Nat) (init : List DBRow),
      (∀ t ∈ txns, isOkE (transform_transaction t) = true) →
      ∃ u k, (upsert_transactions (fun _ => false) false now init txns).result
        = .ok (u, k) ∧ u + k = txns.length) := by
  refine ⟨fun txn d hd => transform_rejects_iff txn d hd, ?_, ?_⟩
  · intro txn d hd hid hamt
    constructor
    · exact transform_no_raise txn (some d) hd
    · intro hno
      rw [transform_rejects_iff txn (some d) hd] at hno
      rcases hno with h | h | h
      · rw [hid] at h; exact Bool.noConfusion h
      · exact Option.noConfusion h
      · rw [hamt] at h; exact Option.noConfusion h
  · intro txns now init hok
    obtain ⟨s2, u2, k2, heq, hsum⟩ := upsert_loop_counts now txns init 0 0 0 hok
    refine ⟨u2, k2, ?_, by omega⟩
    unfold upsert_transactions
    rw [heq]
    rfl

/-- Transaction with a present but malformed date: `strptime` raises. -/
def txnBadDate : Txn :=
  [("id", .str "b1"), ("date", .str "not-a-date"), ("amount", .num 5)]

/-- C5 counterexample to the claim as stated: a transaction whose date fails
date-parsing is not rejected-and-counted — `_transform_transaction` raises
`ValueError`, `upsert_transactions` rolls back and re-raises, and the call
does not complete with `upserted + skipped = batch length`. -/
theorem c5_counterexample :
    transform_transaction txnBadDate =
      .error "ValueError: time data not-a-date does not match format %Y-%m-%d" ∧
    (upsert_transactions (fun _ => false) false 0 [] [txnBadDate]).result =
      .error "ValueError: time data not-a-date does not match format %Y-%m-%d" ∧
    (upsert_transactions (fun _ => false) false 0 [] [txnBadDate]).store = [] :=
  ⟨rfl, rfl, rfl⟩

/-- Batch for the C5 witness: one ordinary transaction, one with amount
zero (accepted), one with no amount (skipped). -/
def batchC5 : List Txn :=
  [[("id", .str "a1"), ("date", .str "2024-01-15"), ("amount", .num 5)],
   [("id", .str "a2"), ("date", .str "2024-01-16"), ("amount", .num 0)],
   [("id", .str "a3"), ("date", .str "2024-01-17")]]

theorem c5_rejection_and_accounting_witness :
    (upsert_transactions (fun _ => false) false 0 [] batchC5).result =
      .ok (2, 1) := by
  obtain ⟨u, k, heq, hsum⟩ := c5_rejection_and_accounting.2.2 batchC5 0 []
    (by intro t ht; fin_cases ht <;> rfl)
  exact rfl

/-- Helper: one `_fetch_with_retry` call issues at most two page requests. -/
theorem fetch_with_retry_calls_le {α : Type} (pg : PageOracle α) (off : Nat) :
    (fetch_with_retry pg off).calls.length ≤ 2 := by
  unfold fetch_with_retry
  split
  · simp
  · split <;> simp

/-- Helper: the page loop returns immediately once the accumulated count has
reached the totalCount read from the first page. -/
theorem fetch_pages_stop {α : Type} (pg : PageOracle α)
    (limit total off : Nat) (acc : List α) (log : List (Nat × Nat))
    (h : ¬ acc.length < total) :
    fetch_pages pg limit total off acc log = ⟨.ok acc, log, false⟩ := by
  rw [fetch_pages.eq_def, dif_neg h]

/-- Helper: a failing page fetch (after its one allowed retry) propagates
out of the page loop. -/
theorem fetch_pages_error {α : Type} (pg : PageOracle α)
    (limit total off : Nat) (acc : List α) (log : List (Nat × Nat))
    (e : PyErr) (hlt : acc.length < total)
    (hres : (fetch_with_retry pg off).result = .error e) :
    fetch_pages pg limit total off acc log =
      ⟨.error e, log ++ (fetch_with_retry pg off).calls, false⟩ := by
  rw [fetch_pages.eq_def, dif_pos hlt]
  simp only [hres]

/-- Helper: the empty-page safety guard — a page with zero records stops the
loop at once, returning the records accumulated so far and flagging the
truncation. -/
theorem fetch_pages_empty {α : Type} (pg : PageOracle α)
    (limit total off : Nat) (acc : List α) (log : List (Nat × Nat))
    (page : PageResp α) (hlt : acc.length < total)
    (hres : (fetch_with_retry pg off).result = .ok page)
    (hemp : page.results = []) :
    fetch_pages pg limit total off acc log =
      ⟨.ok acc, log ++ (fetch_with_retry pg off).calls, true⟩ := by
  rw [fetch_pages.eq_def, dif_pos hlt]
  simp only [hres, hemp]
  rfl

/-- Helper: a non-empty page is accumulated and the loop advances the offset
by the page size. -/
theorem fetch_pages_step {α : Type} (pg : PageOracle α)
    (limit total off : Nat) (acc : List α) (log : List (Nat × Nat))
    (page : PageResp α) (hlt : acc.length < total)
    (hres : (fetch_with_retry pg off).result = .ok page)
    (hne : page.results ≠ []) :
    fetch_pages pg limit total off acc log =
      fetch_pages pg limit total (off + limit) (acc ++ page.results)
        (log ++ (fetch_with_retry pg off).calls) := by
  rw [fetch_pages.eq_def, dif_pos hlt]
  simp only [hres]
  rw [dif_neg (by simpa [List.isEmpty_iff] using hne)]

/-- Helper: the page loop always terminates, issuing a number of page
requests bounded by twice the outstanding record count plus a constant. -/
theorem fetch_pages_requests_le {α : Type} (pg : PageOracle α)
    (limit total : Nat) :
    ∀ (n off : Nat) (acc : List α) (log : List (Nat × Nat)),
      total - acc.length ≤ n →
      (fetch_pages pg limit total off acc log).requests.length ≤
        log.length + 2 * (total - acc.length) + 2 := by
  intro n
  induction n with
  | zero =>
    intro off acc log hn
    rw [fetch_pages_stop pg limit total off acc log (by omega)]
    show log.length ≤ log.length + 2 * (total - acc.length) + 2
    omega
  | succ n ih =>
    intro off acc log hn
    by_cases hlt : acc.length < total
    · have hcalls := fetch_with_retry_calls_le pg off
      cases hres : (fetch_with_retry pg off).result with
      | error e =>
        rw [fetch_pages_error pg limit total off acc log e hlt hres]
        simp only [List.length_append]
        omega
      | ok page =>
        cases hemp : page.results with
        | nil =>
          rw [fetch_pages_empty pg limit total off acc log page hlt hres hemp]
          simp only [List.length_append]
          omega
        | cons a l =>
          rw [fetch_pages_step pg limit total off acc log page hlt hres
            (by rw [hemp]; exact List.cons_ne_nil a l)]
          have hlen : (acc ++ page.results).length = acc.length +
              page.results.length := List.length_append acc page.results
          have hpos : 0 < page.results.length := by rw [hemp]; simp
          have := ih (off + limit) (acc ++ page.results)
            (log ++ (fetch_with_retry pg off).calls) (by omega)
          simp only [List.length_append] at this ⊢
          omega
    · rw [fetch_pages_stop pg limit total off acc log hlt]
      show log.length ≤ log.length + 2 * (total - acc.length) + 2
      omega

/-- Oracle for C2: the first page reports totalCount 250 and returns `rs`;
every later page reports an arbitrary totalCount and returns no records. -/
def pgEmptyAt (rs : List α) (tcLater : Nat → Nat) : PageOracle α :=
  fun _ off =>
    .ok ⟨if off = 0 then 250 else tcLater off, if off = 0 then rs else []⟩

/-- C2: if a page after the first returns zero records while the
accumulated count is still below the totalCount read from the first page,
pagination stops immediately with the records accumulated so far and the
truncation is flagged (first conjunct: the concrete 250/100 scenario stops
after the empty page at offset 100 with exactly the 100 first-page records;
second conjunct: the guard in full generality; third conjunct: the loop
always terminates, with a request count bounded in the outstanding record
count — it never runs forever). -/
theorem c2_empty_page_truncation {α : Type} (rs : List α)
    (tcLater : Nat → Nat) (hlen : rs.length = 100) :
    fetch_transactions (some (pgEmptyAt rs tcLater)) 100 =
      ⟨.ok rs, [(0, 0), (0, 100)], true⟩ ∧
    (∀ (pg : PageOracle α) (limit total off : Nat) (acc : List α)
      (log : List (Nat × Nat)) (page : PageResp α),
      acc.length < total →
      (fetch_with_retry pg off).result = .ok page →
      page.results = [] →
      fetch_pages pg limit total off acc log =
        ⟨.ok acc, log ++ (fetch_with_retry pg off).calls, true⟩) ∧
    (∀ (pg : PageOracle α) (limit total off : Nat) (acc : List α)
      (log : List (Nat × Nat)),
      (fetch_pages pg limit total off acc log).requests.length ≤
        log.length + 2 * (total - acc.length) + 2) := by
  refine ⟨?_, ?_, ?_⟩
  · show fetch_pages (pgEmptyAt rs tcLater) 100 250 100 rs [(0, 0)] =
      ⟨.ok rs, [(0, 0), (0, 100)], true⟩
    rw [fetch_pages_empty (pgEmptyAt rs tcLater) 100 250 100 rs [(0, 0)]
      ⟨tcLater 100, []⟩ (by omega) rfl rfl]
    rfl
  · exact fun pg limit total off acc log page hlt hres hemp =>
      fetch_pages_empty pg limit total off acc log page hlt hres hemp
  · exact fun pg limit total off acc log =>
      fetch_pages_requests_le pg limit total (total - acc.length) off acc log
        (Nat.le_refl _)

theorem c2_empty_page_truncation_witness :
    fetch_transactions (some (pgEmptyAt (List.range 100) (fun _ => 0))) 100 =
      ⟨.ok (List.range 100), [(0, 0), (0, 100)], true⟩ :=
  (c2_empty_page_truncation (List.range 100) (fun _ => 0) (by simp)).1

/-- Oracle for C1: the service holds the records `master`; each request
returns the full next slice of up to `limit` records; the first page reports
totalCount 250 and later pages report arbitrary totalCounts (which the
fetcher must ignore: it reads the stopping bound once, from page one). -/
def pgSlice (master : List α) (limit : Nat) (tcLater : Nat → Nat) :
    PageOracle α :=
  fun _ off =>
    .ok ⟨if off = 0 then 250 else tcLater off, (master.drop off).take limit⟩

/-- C1: with totalCount 250 reported on the first page and the service
returning full pages of a 250-record collection, exactly 3 page requests
occur, at offsets 0, 100 and 200, and the result is all 250 records.  The
totalCount reported by later pages is universally quantified (`tcLater`):
the bound read from the first response is the sole stopping bound, never
re-read from later pages. -/
theorem c1_pagination_completeness {α : Type} (master : List α)
    (tcLater : Nat → Nat) (hm : master.length = 250) :
    fetch_transactions (some (pgSlice master 100 tcLater)) 100 =
      ⟨.ok master, [(0, 0), (0, 100), (0, 200)], false⟩ := by
  show fetch_pages (pgSlice master 100 tcLater) 100 250 100
    (master.take 100) [(0, 0)] = ⟨.ok master, [(0, 0), (0, 100), (0, 200)], false⟩
  rw [fetch_pages_step (pgSlice master 100 tcLater) 100 250 100
    (master.take 100) [(0, 0)] ⟨tcLater 100, (master.drop 100).take 100⟩
    (by simp [hm]) rfl
    (List.length_pos.mp (by simp [hm]))]
  show fetch_pages (pgSlice master 100 tcLater) 100 250 200
    (master.take 100 ++ (master.drop 100).take 100) [(0, 0), (0, 100)] =
    ⟨.ok master, [(0, 0), (0, 100), (0, 200)], false⟩
  rw [← List.take_add]
  show fetch_pages (pgSlice master 100 tcLater) 100 250 200
    (master.take 200) [(0, 0), (0, 100)] =
    ⟨.ok master, [(0, 0), (0, 100), (0, 200)], false⟩
  rw [fetch_pages_step (pgSlice master 100 tcLater) 100 250 200
    (master.take 200) [(0, 0), (0, 100)]
    ⟨tcLater 200, (master.drop 200).take 100⟩
    (by simp [hm]) rfl
    (List.length_pos.mp (by simp [hm]))]
  show fetch_pages (pgSlice master 100 tcLater) 100 250 300
    (master.take 200 ++ (master.drop 200).take 100)
    [(0, 0), (0, 100), (0, 200)] =
    ⟨.ok master, [(0, 0), (0, 100), (0, 200)], false⟩
  rw [← List.take_add]
  show fetch_pages (pgSlice master 100 tcLater) 100 250 300
    (master.take 300) [(0, 0), (0, 100), (0, 200)] =
    ⟨.ok master, [(0, 0), (0, 100), (0, 200)], false⟩
  rw [fetch_pages_stop (pgSlice master 100 tcLater) 100 250 300
    (master.take 300) [(0, 0), (0, 100), (0, 200)] (by simp [hm])]
  rw [List.take_of_length_le (by omega)]

theorem c1_pagination_completeness_witness :
    fetch_transactions (some (pgSlice (List.range 250) 100 (fun _ => 999)))
      100 = ⟨.ok (List.range 250), [(0, 0), (0, 100), (0, 200)], false⟩ :=
  c1_pagination_completeness (List.range 250) (fun _ => 999) (by simp)

/-- One row per unique transaction identifier: no two stored rows share a
`transaction_id`. -/
def keyUnique (s : List DBRow) : Prop :=
  List.Pairwise
    (fun a b => JValue.beq a.data.transaction_id b.data.transaction_id = false) s

/-- Helper: the conflict update leaves a row equal to a fresh insert of the
incoming payload whenever the key matches and the two columns outside the
`DO UPDATE SET` list already agree. -/
theorem updateRow_self (old : DBRow) (p : Row) (now : Nat)
    (hid2 : old.data.transaction_id = p.transaction_id)
    (hcg : old.data.category_group = p.category_group)
    (hao : old.data.account_owner = p.account_owner) :
    updateRow old p now = ⟨p, now⟩ := by
  unfold updateRow
  rw [hid2, hcg, hao]

/-- Helper: executing `UPSERT_SQL` preserves the one-row-per-identifier
invariant: on conflict it updates in place (keys unchanged), otherwise it
appends a row whose key was not present. -/
theorem apply_upsert_keyUnique (s : List DBRow) (p : Row) (now : Nat)
    (hu : keyUnique s) : keyUnique (apply_upsert s p now) := by
  unfold apply_upsert
  split
  · rename_i hany
    have hkey : ∀ r : DBRow,
        ((if JValue.beq r.data.transaction_id p.transaction_id then
          updateRow r p now else r).data.transaction_id) =
          r.data.transaction_id := by
      intro r
      split
      · rfl
      · rfl
    rw [keyUnique, List.pairwise_map]
    exact hu.imp (fun {a b} h => by rw [hkey a, hkey b]; exact h)
  · rename_i hany
    rw [keyUnique, List.pairwise_append]
    refine ⟨hu, List.pairwise_singleton _ _, ?_⟩
    intro a ha b hb
    simp only [List.mem_singleton] at hb
    subst hb
    simp only [List.any_eq_true, not_exists, not_and] at hany
    have := fun hx => hany a ha hx
    cases hq : JValue.beq a.data.transaction_id p.transaction_id with
    | false => rfl
    | true => exact absurd hq (by simpa using hany a ha)

/-- C8: upserting the same transaction identifier twice (as two
`upsert_transactions` calls on an initially empty store) leaves exactly one
row, carrying the second call's values for every column — including the
verbatim `raw_json` record — and the second call's ingestion timestamp;
and in full generality, `UPSERT_SQL` never creates a second row for an
existing identifier (it preserves the one-row-per-key invariant). -/
theorem c8_upsert_idempotent (t1 t2 : Txn) (r1 r2 : Row) (now1 now2 : Nat)
    (h1 : transform_transaction t1 = .ok (some r1))
    (h2 : transform_transaction t2 = .ok (some r2))
    (hid : r1.transaction_id = r2.transaction_id) :
    (upsert_transactions (fun _ => false) false now2
      (upsert_transactions (fun _ => false) false now1 [] [t1]).store
      [t2]).store = [⟨r2, now2⟩] ∧
    (∀ (s : List DBRow) (p : Row) (now : Nat),
      keyUnique s → keyUnique (apply_upsert s p now)) := by
  refine ⟨?_, fun s p now hu => apply_upsert_keyUnique s p now hu⟩
  have hbeq : JValue.beq r1.transaction_id r2.transaction_id = true := by
    rw [hid]
    exact JValue.beq_refl _
  have hs1 : (upsert_transactions (fun _ => false) false now1 [] [t1]).store =
      [⟨r1, now1⟩] := by
    unfold upsert_transactions
    simp [upsert_loop, h1, apply_upsert]
  rw [hs1]
  have hs2 : (upsert_transactions (fun _ => false) false now2 [⟨r1, now1⟩]
      [t2]).store = [updateRow ⟨r1, now1⟩ r2 now2] := by
    unfold upsert_transactions
    simp [upsert_loop, h2, apply_upsert, hbeq]
  rw [hs2]
  rw [updateRow_self ⟨r1, now1⟩ r2 now2 hid
    (((transform_fields t1 r1 h1).2.2.2.1).trans
      ((transform_fields t2 r2 h2).2.2.2.1).symm)
    (((transform_fields t1 r1 h1).2.2.2.2.1).trans
      ((transform_fields t2 r2 h2).2.2.2.2.1).symm)]

/-- First version of a transaction for the C8 witness. -/
def txnC8a : Txn :=
  [("id", .str "u1"), ("date", .str "2024-01-15"), ("amount", .num 5),
   ("notes", .str "first")]

/-- Re-ingested version of the same transaction: same id, new values. -/
def txnC8b : Txn :=
  [("id", .str "u1"), ("date", .str "2024-01-20"), ("amount", .num 9),
   ("notes", .str "second")]

theorem c8_upsert_idempotent_witness :
    (upsert_transactions (fun _ => false) false 7
      (upsert_transactions (fun _ => false) false 3 [] [txnC8a]).store
      [txnC8b]).store = [⟨rowOf txnC8b, 7⟩] :=
  (c8_upsert_idempotent txnC8a txnC8b (rowOf txnC8a) (rowOf txnC8b) 3 7
    rfl rfl rfl).1

/-- The store update a successful batch commits: each accepted row applied
through `UPSERT_SQL` in batch order. -/
def batchEffect (now : Nat) (init : List DBRow) (txns : List Txn) :
    List DBRow :=
  txns.foldl (fun acc t =>
    match transform_transaction t with
    | .ok (some r) => apply_upsert acc r now
    | _ => acc) init

/-- Helper: when the per-transaction loop completes, the uncommitted store
it hands to `commit` is exactly the batch effect applied to the initial
store. -/
theorem upsert_loop_store (execF : Nat → Bool) (now : Nat) :
    ∀ (txns : List Txn) (s : List DBRow) (ups skips k : Nat)
      (s2 : List DBRow) (u2 k2 : Nat),
      upsert_loop execF now txns s ups skips k = .ok (s2, u2, k2) →
      s2 = batchEffect now s txns := by
  intro txns
  induction txns with
  | nil =>
    intro s ups skips k s2 u2 k2 h
    simp only [upsert_loop, Except.ok.injEq, Prod.mk.injEq] at h
    rw [← h.1]
    rfl
  | cons t rest ih =>
    intro s ups skips k s2 u2 k2 h
    cases htr : transform_transaction t with
    | error e => simp [upsert_loop, htr] at h
    | ok o =>
      cases o with
      | none =>
        simp only [upsert_loop, htr] at h
        rw [ih s ups (skips + 1) k s2 u2 k2 h]
        simp [batchEffect, htr]
      | some row =>
        simp only [upsert_loop, htr] at h
        cases hf : execF k with
        | true => rw [hf] at h; simp at h
        | false =>
          rw [hf] at h
          simp only [Bool.false_eq_true, if_false] at h
          rw [ih (apply_upsert s row now) (ups + 1) skips (k + 1) s2 u2 k2 h]
          simp [batchEffect, htr]

/-- C9: one `upsert_transactions` call is atomic.  Whenever the call raises
(a transform exception, an injected execute failure, or a commit failure),
the store visible after the call is exactly the initial store — no partial
batch; and whenever the call returns normally, the visible store is the
whole batch applied. -/
theorem c9_batch_atomicity (execF : Nat → Bool) (commitF : Bool) (now : Nat)
    (init : List DBRow) (txns : List Txn) :
    (∀ e, (upsert_transactions execF commitF now init txns).result =
        .error e →
      (upsert_transactions execF commitF now init txns).store = init) ∧
    (∀ u k, (upsert_transactions execF commitF now init txns).result =
        .ok (u, k) →
      (upsert_transactions execF commitF now init txns).store =
        batchEffect now init txns) := by
  unfold upsert_transactions
  cases hl : upsert_loop execF now txns init 0 0 0 with
  | error e => exact ⟨fun e2 h2 => rfl, fun u k h2 => by simp at h2⟩
  | ok triple =>
    obtain ⟨s2, u2, k2⟩ := triple
    cases commitF with
    | true => exact ⟨fun e2 h2 => rfl, fun u k h2 => by simp at h2⟩
    | false =>
      refine ⟨fun e2 h2 => by simp at h2, fun u k h2 => ?_⟩
      exact upsert_loop_store execF now txns init 0 0 0 s2 u2 k2 hl

/-- Transactions for the C9 witness. -/
def txnC9a : Txn :=
  [("id", .str "c1"), ("date", .str "2024-02-01"), ("amount", .num 1)]

/-- Second transaction for the C9 witness (its execute will fail). -/
def txnC9b : Txn :=
  [("id", .str "c2"), ("date", .str "2024-02-02"), ("amount", .num 2)]

theorem c9_batch_atomicity_witness :
    (upsert_transactions (fun k => k == 1) false 5 [⟨rowOf txnC6w, 0⟩]
      [txnC9a, txnC9b]).store = [⟨rowOf txnC6w, 0⟩] :=
  (c9_batch_atomicity (fun k => k == 1) false 5 [⟨rowOf txnC6w, 0⟩]
    [txnC9a, txnC9b]).1 "DatabaseError: execute failed" rfl

end Monarch
